import Mathlib

/-!
Verification development for the frame.ai repository: a shallow embedding
of the React client found under src (the two App.js variants) together
with spec-modelled definitions for the server-side FrameStore, Dispatcher
and Worker components, whose Python sources are not part of src.
-/

namespace Frames

/-!
### Client-side change detection, current variant

Embeds checkForChanges from src/unnamed/part_001 (lines 402-437).
The React state lastKnownFrameNames starts as the empty string and the
debugging reset sets it to null; both are falsy in the guard
`lastKnownFrameNames && lastKnownFrameNames !== currentResponse`, so the
absent-baseline case is modelled as none.  The fetched value is the
JSON.stringify of the whole listing response; none models a response
that was not ok (the function then ends returning false).
-/

/-- One run of the current checkForChanges: given the remembered baseline
and the freshly fetched serialized listing, return the hasChanges flag
together with the updated baseline, exactly as the source updates the
lastKnownFrameNames state. -/
def checkForChanges (baseline : Option String) (fetched : Option String) :
    Bool × Option String :=
  match fetched with
  | none => (false, baseline)
  | some cur =>
    match baseline with
    | some b => if b ≠ cur then (true, some cur) else (false, some b)
    | none => (false, some cur)

/-!
### Client-side change detection, legacy variant

Embeds checkForChanges from src/src/App.js (lines 371-440): first a
directory-modification-time comparison with zero tolerance, then a
frame-count comparison, then a comparison involving the frame names of
the current page.
-/

/-- The component state the legacy checkForChanges reads: the remembered
directory modification time (none models null; the source guard is JS
truthiness, so a stored 0 also counts as absent), the remembered frame
count, the remembered joined frame-name baseline, and the frames list
currently held in component state. -/
structure OldChangeState where
  lastDirModTime : Option Int
  lastKnownFrameCount : Int
  lastKnownFrameNames : String
  frames : List String
deriving DecidableEq

/-- The three fetches the legacy checkForChanges performs; none models a
response that was not ok, in which case the corresponding block is
skipped. -/
structure OldFetch where
  dirModTime : Option Int
  totalResp : Option Int
  pageFrames : Option (List String)
deriving DecidableEq

/-- JS truthiness of a number-or-null value: null and 0 are falsy. -/
def jsTruthyInt (x : Option Int) : Bool :=
  match x with
  | some v => v != 0
  | none => false

/-- The comma separator used by Array.prototype.join in the source. -/
def commaSep : String := ","

/-- Joined frame names, the embedding of frames.join with a comma. -/
def joinNames (l : List String) : String :=
  String.intercalate commaSep l

/-- The backup detection of the legacy checkForChanges: compare the
fetched total against the remembered count, and then, when the client
holds a nonempty frames list, compare the joined client-state frame
names against the remembered baseline.  Note the source compares
currentFrameNames (built from the in-memory frames state) with the
baseline; the freshly fetched page names are only logged and stored. -/
def checkBackup (st : OldChangeState) (f : OldFetch) : Bool × OldChangeState :=
  match f.totalResp with
  | none => (false, st)
  | some tot =>
    if tot != st.lastKnownFrameCount then
      (true, { st with lastKnownFrameCount := tot })
    else if st.frames.length > 0 then
      match f.pageFrames with
      | none => (false, st)
      | some page =>
        let currentFrameNames := joinNames st.frames
        let newFrameNames := joinNames page
        if currentFrameNames != st.lastKnownFrameNames then
          (true, { st with lastKnownFrameNames := newFrameNames })
        else (false, st)
    else (false, st)

/-- The legacy checkForChanges: the directory-modification-time check
(change reported when the baseline is truthy and the difference is
strictly positive; baseline recorded when absent), followed by the
backup checks. -/
def checkForChangesOld (st : OldChangeState) (f : OldFetch) :
    Bool × OldChangeState :=
  match f.dirModTime with
  | none => checkBackup st f
  | some t =>
    if jsTruthyInt st.lastDirModTime = true ∧ 0 < t - st.lastDirModTime.getD 0 then
      (true, { st with lastDirModTime := some t })
    else
      let st1 :=
        if jsTruthyInt st.lastDirModTime = false then
          { st with lastDirModTime := some t }
        else st
      checkBackup st1 f

/-!
### Claim theorems for change detection
-/

/-- C1: for a polling viewer in fallback mode (the current client exposes
no version counter, so every viewer is in fallback mode), a change is
detected iff the newly fetched serialized listing differs byte for byte
from the remembered baseline; when the fetched response is identical to
the baseline no refresh is triggered, and on the very first poll the
baseline is recorded and no change is reported. -/
theorem C1_fallback_change_detection :
    (∀ b cur : String,
      ((checkForChanges (some b) (some cur)).1 = true ↔ b ≠ cur))
    ∧ (∀ cur : String, checkForChanges (some cur) (some cur) = (false, some cur))
    ∧ (∀ cur : String, checkForChanges none (some cur) = (false, some cur)) := by
  refine ⟨fun b cur => ?_, fun cur => ?_, fun cur => ?_⟩
  · by_cases h : b = cur <;> simp [checkForChanges, h]
  · simp [checkForChanges]
  · simp [checkForChanges]

/-- C5: the legacy change check misses a pure frame-name change.  With the
directory modification time unchanged and the total frame count
unchanged, but the freshly fetched page names differing from the
remembered baseline, checkForChangesOld reports no change: it compares
the in-memory frames state (equal to the baseline after every load)
against the baseline instead of the fetched names, so wall-clock
modification time is in effect the only live signal for such changes. -/
theorem C5_name_change_missed :
    (checkForChangesOld
      { lastDirModTime := some 1700000000000
        lastKnownFrameCount := 1
        lastKnownFrameNames := "frame_000001.jpg"
        frames := ["frame_000001.jpg"] }
      { dirModTime := some 1700000000000
        totalResp := some 1
        pageFrames := some ["frame_000001_v2.jpg"] }).1 = false
    ∧ joinNames ["frame_000001_v2.jpg"] ≠ "frame_000001.jpg" := by
  constructor
  · decide
  · decide

/-!
### Client task polling

Embeds pollTaskStatus and the task banner from src/unnamed/part_001
(lines 465-516 and 749-800).
-/

/-- The progress object the client reads from a status response; the
source accesses the fields current and total and guards both with the
JS or-operator, so either may be absent. -/
structure Progress where
  current : Option Nat
  total : Option Nat
deriving DecidableEq

/-- The body of one task-status response as the client reads it: a
status string plus optional progress, error and result fields. -/
structure StatusData where
  status : String
  progress : Option Progress
  error : Option String
  result : Option String
deriving DecidableEq

/-- One entry of the runningTasks client state. -/
structure ClientTask where
  id : String
  status : String
  frames : List ℚ
  progress : Option Progress
  error : Option String
  result : Option String
deriving DecidableEq

/-- The effect of one successful poll on the matched task, as decided by
the body of pollTaskStatus: the updated task, whether the polling
interval keeps running (clearInterval is not called), whether a frame
refresh is triggered (loadFrames and fetchTotalFrames), and the delay of
the scheduled banner removal when one is set. -/
structure PollUpdate where
  task : ClientTask
  keepPolling : Bool
  refresh : Bool
  removalDelayMs : Option Nat
deriving DecidableEq

/-- Embedding of the status dispatch inside pollTaskStatus: the branch on
statusData.status with the string values completed, failed and
processing; any other value leaves the task unchanged and the interval
running. -/
def updateTask (sd : StatusData) (t : ClientTask) : PollUpdate :=
  if sd.status = "completed" then
    { task := { t with status := "completed", result := sd.result }
      keepPolling := false
      refresh := true
      removalDelayMs := some 15000 }
  else if sd.status = "failed" then
    { task := { t with status := "failed", error := sd.error }
      keepPolling := false
      refresh := false
      removalDelayMs := some 5000 }
  else if sd.status = "processing" then
    { task := { t with status := "processing", progress := sd.progress }
      keepPolling := true
      refresh := false
      removalDelayMs := none }
  else
    { task := t, keepPolling := true, refresh := false, removalDelayMs := none }

/-- JS or-default on an optional number: null, undefined and 0 all fall
back to the default, as in the truthiness test of the or-operator. -/
def jsOrNat (x : Option Nat) (d : Nat) : Nat :=
  match x with
  | some v => if v = 0 then d else v
  | none => d

/-- The progress line of the task banner (line 792 of the source): it
renders progress.current with default 0 over progress.total with
default 1. -/
def bannerProgressText (p : Progress) : Nat × Nat :=
  (jsOrNat p.current 0, jsOrNat p.total 1)

/-- The interval cadence of pollTaskStatus, in milliseconds. -/
def pollIntervalMs : Nat := 2000

/-- The unconditional cleanup timeout of pollTaskStatus that clears the
polling interval, in milliseconds. -/
def pollCleanupMs : Nat := 300000

/-- The instant of the k-th firing of the polling interval. -/
def pollTickAt (k : Nat) : Nat := (k + 1) * pollIntervalMs

/-- A firing of the polling interval happens only while the cleanup
timeout has not cleared it. -/
def pollTickOccurs (k : Nat) : Prop := pollTickAt k ≤ pollCleanupMs

instance (k : Nat) : Decidable (pollTickOccurs k) := by
  unfold pollTickOccurs; infer_instance

/-- A concrete running task used to instantiate the polling theorems. -/
def sampleTask : ClientTask :=
  { id := "task-1"
    status := "running"
    frames := [3, 7]
    progress := none
    error := none
    result := none }

/-!
### Spec-modelled server components

The FastAPI server and the interpolation worker of this repository are
not under src (only the client that calls them is), so the FrameStore,
TaskRecord, Dispatcher and Worker are modelled from the spec.
-/

/-- Modelled from the spec: the state field of a TaskRecord (section 3);
the server source holding it is not under src. -/
inductive TaskState where
  | Queued
  | Running
  | Completed
  | Failed
deriving DecidableEq

/-- Modelled from the spec: the server-side TaskRecord (section 3) with
its identifier, owning repo, deduplicated target frames, lifecycle
state, progress counters and optional error; the server source is not
under src. -/
structure TaskRecord where
  id : Nat
  repoId : Nat
  targetFrames : List Nat
  state : TaskState
  done : Nat
  total : Nat
  error : Option String
deriving DecidableEq

/-- Modelled from the spec: the synchronous validation failures of the
Dispatcher (sections 6 and 7); the server source is not under src. -/
inductive ValidationError where
  | EmptyRequest
  | InvalidFrameRange
deriving DecidableEq

/-- Modelled from the spec: Dispatcher submission (section 4.2).  The
request must be nonempty and every frame number must lie in the closed
range from 1 to the current total; duplicates collapse to one unit of
work, total is the size of the deduplicated target set and the record
starts Queued with done zero.  The server source is not under src. -/
def submit (req : List Nat) (currentTotal freshId repoId : Nat) :
    Except ValidationError TaskRecord :=
  if req = [] then Except.error ValidationError.EmptyRequest
  else if ∀ n ∈ req, 1 ≤ n ∧ n ≤ currentTotal then
    Except.ok
      { id := freshId
        repoId := repoId
        targetFrames := req.dedup
        state := TaskState.Queued
        done := 0
        total := req.dedup.length
        error := none }
  else Except.error ValidationError.InvalidFrameRange

instance : DecidableEq (Except ValidationError TaskRecord) := fun a b =>
  match a, b with
  | Except.error x, Except.error y =>
    if h : x = y then isTrue (by rw [h])
    else isFalse (fun hc => by cases hc; exact h rfl)
  | Except.ok x, Except.ok y =>
    if h : x = y then isTrue (by rw [h])
    else isFalse (fun hc => by cases hc; exact h rfl)
  | Except.error _, Except.ok _ => isFalse (fun hc => Except.noConfusion hc)
  | Except.ok _, Except.error _ => isFalse (fun hc => Except.noConfusion hc)

/-- The result of one dispatch: the synchronous reply and the list of
descriptors placed on the Job Queue by this call. -/
structure DispatchResult where
  result : Except ValidationError TaskRecord
  enqueued : List (Nat × Nat × List Nat)
deriving DecidableEq

/-- Modelled from the spec: the Dispatcher creates the record and
enqueues one descriptor on success, and enqueues nothing on a
validation failure (sections 4.2 and 7); the server source is not under
src. -/
def dispatch (req : List Nat) (currentTotal freshId repoId : Nat) :
    DispatchResult :=
  match submit req currentTotal freshId repoId with
  | Except.error e => { result := Except.error e, enqueued := [] }
  | Except.ok r =>
      { result := Except.ok r, enqueued := [(r.id, r.repoId, r.targetFrames)] }

/-- Modelled from the spec: one frame attempt of the Worker (section
4.4); done counts the frames actually written, so it increments exactly
when the attempt succeeded.  The worker source is not under src. -/
def stepFrame (r : TaskRecord) (ok : Bool) : TaskRecord :=
  { r with done := if ok then r.done + 1 else r.done }

/-- Modelled from the spec: the sequence of TaskRecord values observable
while the Worker attempts the frames of one task, one boolean outcome
per attempted frame.  The worker source is not under src. -/
def workerTrace : TaskRecord → List Bool → List TaskRecord
  | r, [] => [r]
  | r, o :: os => r :: workerTrace (stepFrame r o) os

/-- Modelled from the spec: one frame reference of the FrameStore
(section 3); the server source is not under src. -/
structure FrameRef where
  number : Nat
  path : String
  size : Nat
deriving DecidableEq

/-- Modelled from the spec: the FrameStore with its ordered frames and
monotonic version counter (section 3); the server source is not under
src. -/
structure FrameStore where
  frames : List FrameRef
  version : Nat
deriving DecidableEq

/-- The combined client-and-server state relevant to banner dismissal:
the client-side runningTasks list next to the spec-modelled server-side
task table, frame store and in-flight work queue. -/
structure SystemState where
  runningTasks : List ClientTask
  serverTasks : List TaskRecord
  store : FrameStore
  inFlight : List (Nat × Nat × List Nat)
deriving DecidableEq

/-- The dismiss button of a task banner (line 781 of
src/unnamed/part_001): its handler only filters the clicked task out of
the runningTasks client state and performs no request. -/
def dismissTask (s : SystemState) (tid : String) : SystemState :=
  { s with runningTasks := s.runningTasks.filter (fun t => t.id != tid) }

/-- The scheduled banner removal of pollTaskStatus (lines 485-487 and
497-499 of src/unnamed/part_001): the timeout callback only filters the
task out of the runningTasks client state. -/
def autoRemoveTask (s : SystemState) (tid : String) : SystemState :=
  { s with runningTasks := s.runningTasks.filter (fun t => t.id != tid) }

/-!
### Frame selection and the banner textarea

Embeds the selectedFrames Set state, the selectedFrameNumbers memo
(lines 286-288), the textarea onChange parser (lines 856-870) and the
request body of the Run Interpolation handler (lines 900-908) of
src/unnamed/part_001.  JS numbers are modelled as exact rationals;
Infinity literals and binary-float rounding are outside the model.
-/

/-- The selectedFrames state is a JS Set of numbers; a Finset of
rationals models it (membership-based, duplicates impossible). -/
def toggleFrameSelection (selected : Finset ℚ) (n : ℚ) : Finset ℚ :=
  if n ∈ selected then selected.erase n else insert n selected

/-- The selectedFrameNumbers memo: the selection as an array sorted in
ascending numeric order by the comparator that subtracts. -/
def selectedFrameNumbers (selected : Finset ℚ) : List ℚ :=
  selected.sort (· ≤ ·)

/-- The target_frames array serialized into the POST body of the Run
Interpolation handler: exactly selectedFrameNumbers at click time. -/
def interpolateTargetFrames (selected : Finset ℚ) : List ℚ :=
  selectedFrameNumbers selected

/-- Whitespace as removed by String.prototype.trim on the ASCII range. -/
def isWhiteChar (c : Char) : Bool :=
  c = ' ' || c = '\t' || c = '\n' || c = '\r'

/-- JS String.prototype.split with a comma separator, over characters:
empty input gives one empty piece, and every comma starts a new piece. -/
def splitCommas : List Char → List (List Char)
  | [] => [[]]
  | c :: rest =>
    let r := splitCommas rest
    if c = ',' then [] :: r
    else
      match r with
      | [] => [[c]]
      | piece :: pieces => (c :: piece) :: pieces

/-- JS String.prototype.trim over characters. -/
def trimChars (cs : List Char) : List Char :=
  ((cs.dropWhile isWhiteChar).reverse.dropWhile isWhiteChar).reverse

/-- The token list the onChange handler builds: split the textarea value
on commas, trim each piece, drop the empty ones. -/
def textareaTokens (input : String) : List (List Char) :=
  ((splitCommas input.data).map trimChars).filter (fun cs => !cs.isEmpty)

/-- Value of a digit run, most significant first. -/
def digitsToNat (ds : List Char) : Nat :=
  ds.foldl (fun acc c => 10 * acc + (c.toNat - 48)) 0

/-- Integer power of ten over the rationals. -/
def pow10 (e : Int) : ℚ :=
  if 0 ≤ e then ((10 : ℚ) ^ e.toNat) else 1 / ((10 : ℚ) ^ (-e).toNat)

/-- The components of the longest leading decimal literal of a token:
sign, integer digits, fractional digits and exponent. -/
structure DecLit where
  negative : Bool
  intDigits : List Char
  fracDigits : List Char
  expo : Int
deriving DecidableEq

/-- The character-level part of JS parseFloat on an already trimmed
token: the longest leading decimal literal (optional sign, digits,
optional fractional digits, optional exponent whose own digits must be
nonempty), or none where parseFloat yields NaN. -/
def parseDecLit (cs : List Char) : Option DecLit :=
  let negAndRest : Bool × List Char :=
    match cs with
    | '-' :: rest => (true, rest)
    | '+' :: rest => (false, rest)
    | _ => (false, cs)
  let cs1 := negAndRest.2
  let intDigits := cs1.takeWhile Char.isDigit
  let cs2 := cs1.dropWhile Char.isDigit
  let fracAndRest : List Char × List Char :=
    match cs2 with
    | '.' :: rest => (rest.takeWhile Char.isDigit, rest.dropWhile Char.isDigit)
    | _ => ([], cs2)
  let fracDigits := fracAndRest.1
  let cs3 := fracAndRest.2
  if intDigits.isEmpty && fracDigits.isEmpty then none
  else
    let expo : Int :=
      match cs3 with
      | [] => 0
      | c :: rest =>
        if c = 'e' || c = 'E' then
          let esignAndRest : Int × List Char :=
            match rest with
            | '-' :: r => (-1, r)
            | '+' :: r => (1, r)
            | _ => (1, rest)
          let eds := esignAndRest.2.takeWhile Char.isDigit
          if eds.isEmpty then 0 else esignAndRest.1 * (digitsToNat eds : Int)
        else 0
    some
      { negative := negAndRest.1
        intDigits := intDigits
        fracDigits := fracDigits
        expo := expo }

/-- The rational denoted by a decimal literal. -/
def decLitVal (d : DecLit) : ℚ :=
  (if d.negative then (-1 : ℚ) else 1) *
    ((digitsToNat d.intDigits : ℚ) +
      (digitsToNat d.fracDigits : ℚ) / pow10 (d.fracDigits.length : Int)) *
    pow10 d.expo

/-- Model of JS parseFloat on an already trimmed token, with none where
parseFloat yields NaN.  The value is the exact rational denoted by the
longest leading decimal literal; Infinity literals and double rounding
are outside the model. -/
def jsParseFloatChars (cs : List Char) : Option ℚ :=
  (parseDecLit cs).map decLitVal

/-- The onChange handler of the banner textarea: parse each token with
parseFloat, keep the non-NaN values, and replace the selection with the
Set of the results. -/
def handleTextareaChange (input : String) : Finset ℚ :=
  ((textareaTokens input).filterMap jsParseFloatChars).toFinset

/-- The concrete textarea value used to instantiate the parsing claim. -/
def sampleTextareaInput : String := "2.5, -3, 1000000"

/-- The record produced by the spec-modelled Dispatcher for the request
with frames 3, 7, 3 against a ten-frame store; used to instantiate the
progress claim. -/
def sampleTaskRecord : TaskRecord :=
  { id := 0
    repoId := 0
    targetFrames := [7, 3]
    state := TaskState.Queued
    done := 0
    total := 2
    error := none }

/-!
### Claim theorems for task polling, dispatch and selection
-/

/-- C2 (counterexample): the claim that the client polling loop
recognizes the state names Queued, Running, Completed, Failed fails on
the code: a response whose status field holds Completed leaves the task
unchanged and the interval running, while the lowercase completed stops
the interval and triggers a refresh. -/
theorem C2_status_names_counterexample :
    (updateTask { status := "Completed", progress := none, error := none, result := none }
        sampleTask).keepPolling = true
    ∧ (updateTask { status := "Completed", progress := none, error := none, result := none }
        sampleTask).task = sampleTask
    ∧ (updateTask { status := "completed", progress := none, error := none, result := none }
        sampleTask).keepPolling = false
    ∧ (updateTask { status := "completed", progress := none, error := none, result := none }
        sampleTask).refresh = true := by
  decide

/-- C2 (amended): the client polling loop recognizes exactly the
lowercase status names processing, completed and failed read from the
status field of the response: completed stops polling and triggers a
refresh, failed stops polling and records the error, processing keeps
polling and stores the progress object, and any other name, including
the capitalized spec names and any queued state, leaves the task
unchanged with polling still running. -/
theorem C2_status_names_amended :
    ∀ (sd : StatusData) (t : ClientTask),
      (sd.status ≠ "completed" → sd.status ≠ "failed" → sd.status ≠ "processing" →
        updateTask sd t =
          { task := t, keepPolling := true, refresh := false, removalDelayMs := none })
      ∧ (sd.status = "completed" →
          (updateTask sd t).keepPolling = false ∧ (updateTask sd t).refresh = true)
      ∧ (sd.status = "failed" →
          (updateTask sd t).keepPolling = false
            ∧ (updateTask sd t).task.error = sd.error)
      ∧ (sd.status = "processing" →
          (updateTask sd t).keepPolling = true
            ∧ (updateTask sd t).task.progress = sd.progress) := by
  intro sd t
  refine ⟨fun h1 h2 h3 => ?_, fun h => ?_, fun h => ?_, fun h => ?_⟩
  · simp [updateTask, h1, h2, h3]
  · simp [updateTask, h]
  · simp [updateTask, h]
  · simp [updateTask, h]

/-- Witness for C2 (amended) at a concrete unrecognized status name. -/
theorem C2_status_names_witness :
    updateTask { status := "Queued", progress := none, error := none, result := none }
        sampleTask =
      { task := sampleTask, keepPolling := true, refresh := false, removalDelayMs := none } :=
  (C2_status_names_amended
      { status := "Queued", progress := none, error := none, result := none }
      sampleTask).1 (by decide) (by decide) (by decide)

theorem workerTrace_cons_eq (os : List Bool) (r : TaskRecord) :
    ∃ tl, workerTrace r os = r :: tl := by
  cases os <;> exact ⟨_, rfl⟩

theorem stepFrame_done_le (r : TaskRecord) (o : Bool) :
    r.done ≤ (stepFrame r o).done := by
  cases o <;> simp [stepFrame]

theorem stepFrame_done_le_succ (r : TaskRecord) (o : Bool) :
    (stepFrame r o).done ≤ r.done + 1 := by
  cases o <;> simp [stepFrame]

theorem workerTrace_chain (os : List Bool) :
    ∀ r, List.Chain' (fun a b => a.done ≤ b.done) (workerTrace r os) := by
  induction os with
  | nil => intro r; simp [workerTrace]
  | cons o os ih =>
    intro r
    obtain ⟨tl, htl⟩ := workerTrace_cons_eq os (stepFrame r o)
    have h := ih (stepFrame r o)
    simp only [workerTrace]
    rw [htl] at h ⊢
    exact List.Chain'.cons (stepFrame_done_le r o) h

theorem workerTrace_bound (os : List Bool) :
    ∀ r : TaskRecord, r.done + os.length ≤ r.total →
      ∀ x ∈ workerTrace r os, x.done ≤ x.total := by
  induction os with
  | nil =>
    intro r h x hx
    simp [workerTrace] at hx
    subst hx
    omega
  | cons o os ih =>
    intro r h x hx
    simp only [workerTrace, List.mem_cons] at hx
    simp only [List.length_cons] at h
    rcases hx with rfl | hx
    · omega
    · refine ih (stepFrame r o) ?_ x hx
      have h1 := stepFrame_done_le_succ r o
      have h2 : (stepFrame r o).total = r.total := rfl
      omega

/-- C3: for every submission the spec-modelled Dispatcher accepts, the
progress total of the created TaskRecord equals the number of distinct
requested frame numbers, and along the whole worker execution trace the
done counter is monotonically non-decreasing and never exceeds the
total. -/
theorem C3_task_progress :
    ∀ (req : List Nat) (currentTotal freshId repoId : Nat) (r : TaskRecord)
      (outcomes : List Bool),
      submit req currentTotal freshId repoId = Except.ok r →
      outcomes.length = r.targetFrames.length →
      (r.total = req.toFinset.card
        ∧ List.Chain' (fun a b => a.done ≤ b.done)
            (workerTrace { r with state := TaskState.Running } outcomes)
        ∧ ∀ x ∈ workerTrace { r with state := TaskState.Running } outcomes,
            x.done ≤ x.total) := by
  intro req ct fid rid r outcomes hsub hlen
  unfold submit at hsub
  split_ifs at hsub with h1 h2
  rw [Except.ok.injEq] at hsub
  subst hsub
  refine ⟨(List.card_toFinset req).symm, workerTrace_chain outcomes _, ?_⟩
  apply workerTrace_bound
  have hlen2 : outcomes.length = req.dedup.length := hlen
  show 0 + outcomes.length ≤ req.dedup.length
  omega

/-- Witness for C3 at the request with frames 3, 7, 3 against a
ten-frame store and the outcome list with one success and one failure. -/
theorem C3_task_progress_witness :
    sampleTaskRecord.total = ([3, 7, 3] : List Nat).toFinset.card
    ∧ List.Chain' (fun a b => a.done ≤ b.done)
        (workerTrace { sampleTaskRecord with state := TaskState.Running } [true, false])
    ∧ ∀ x ∈ workerTrace { sampleTaskRecord with state := TaskState.Running } [true, false],
        x.done ≤ x.total :=
  C3_task_progress [3, 7, 3] 10 0 0 sampleTaskRecord [true, false] (by decide) (by decide)

/-- C4: a submission that is empty or contains a frame number outside
the closed range from 1 to the current total fails synchronously with a
validation error and enqueues nothing, while a nonempty submission with
all numbers in range yields a TaskRecord in state Queued and enqueues
exactly one descriptor (spec-modelled Dispatcher). -/
theorem C4_submit_validation :
    ∀ (req : List Nat) (currentTotal freshId repoId : Nat),
      (req = [] →
        (dispatch req currentTotal freshId repoId).result =
            Except.error ValidationError.EmptyRequest
          ∧ (dispatch req currentTotal freshId repoId).enqueued = [])
      ∧ ((∃ n ∈ req, n = 0 ∨ currentTotal < n) →
          (∃ e, (dispatch req currentTotal freshId repoId).result = Except.error e)
            ∧ (dispatch req currentTotal freshId repoId).enqueued = [])
      ∧ (req ≠ [] → (∀ n ∈ req, 1 ≤ n ∧ n ≤ currentTotal) →
          ∃ r, (dispatch req currentTotal freshId repoId).result = Except.ok r
            ∧ r.state = TaskState.Queued
            ∧ (dispatch req currentTotal freshId repoId).enqueued =
                [(freshId, repoId, req.dedup)]) := by
  intro req ct fid rid
  unfold dispatch submit
  split_ifs with h1 h2
  · refine ⟨fun _ => ⟨rfl, rfl⟩, fun hb => ?_, fun hne _ => absurd h1 hne⟩
    obtain ⟨n, hn, _⟩ := hb
    rw [h1] at hn
    simp at hn
  · refine ⟨fun he => absurd he h1, fun hb => ?_, fun _ _ => ⟨_, rfl, rfl, rfl⟩⟩
    obtain ⟨n, hn, hbad⟩ := hb
    have hok := h2 n hn
    rcases hbad with h0 | hgt <;> omega
  · exact ⟨fun he => absurd he h1,
      fun _ => ⟨⟨ValidationError.InvalidFrameRange, rfl⟩, rfl⟩,
      fun _ hall => absurd hall h2⟩

/-- Witness for C4: an out-of-range request against a two-frame store is
rejected with nothing enqueued, and an in-range request is accepted into
state Queued with one descriptor enqueued. -/
theorem C4_submit_validation_witness :
    ((∃ e, (dispatch [3] 2 0 0).result = Except.error e)
        ∧ (dispatch [3] 2 0 0).enqueued = [])
    ∧ (∃ r, (dispatch [1, 2] 2 5 7).result = Except.ok r
        ∧ r.state = TaskState.Queued
        ∧ (dispatch [1, 2] 2 5 7).enqueued = [(5, 7, List.dedup [1, 2])]) :=
  ⟨(C4_submit_validation [3] 2 0 0).2.1 ⟨3, by decide, by decide⟩,
    (C4_submit_validation [1, 2] 2 5 7).2.2 (by decide) (by decide)⟩

/-- C6: dismissing a task banner mutates only the client-side list of
displayed running tasks; the server-side task table, the frame store
and the in-flight work are untouched, so dismissal is not
cancellation. -/
theorem C6_dismiss_client_only :
    ∀ (s : SystemState) (tid : String),
      (dismissTask s tid).serverTasks = s.serverTasks
      ∧ (dismissTask s tid).store = s.store
      ∧ (dismissTask s tid).inFlight = s.inFlight
      ∧ (dismissTask s tid).runningTasks =
          s.runningTasks.filter (fun t => t.id != tid) :=
  fun s tid => ⟨rfl, rfl, rfl, rfl⟩

/-- C7 (counterexample): the auto-dismiss delay is not one constant
shared by every terminal task: a completed task is removed after 15000
milliseconds and a failed one after 5000. -/
theorem C7_auto_dismiss_counterexample :
    (updateTask { status := "completed", progress := none, error := none, result := none }
        sampleTask).removalDelayMs = some 15000
    ∧ (updateTask { status := "failed", progress := none, error := none, result := none }
        sampleTask).removalDelayMs = some 5000
    ∧ (15000 : Nat) ≠ 5000 := by
  decide

/-- C7 (amended): for every task that reaches a terminal state the UI
auto-dismisses its banner after a fixed per-outcome delay, 15 seconds
for completed and 5 seconds for failed, and the scheduled removal only
filters the client-side list: the spec-modelled server-side TaskRecord
table and frame store are untouched. -/
theorem C7_auto_dismiss_amended :
    ∀ (sd : StatusData) (t : ClientTask) (s : SystemState) (tid : String),
      (sd.status = "completed" → (updateTask sd t).removalDelayMs = some 15000)
      ∧ (sd.status = "failed" → (updateTask sd t).removalDelayMs = some 5000)
      ∧ (autoRemoveTask s tid).serverTasks = s.serverTasks
      ∧ (autoRemoveTask s tid).store = s.store
      ∧ (autoRemoveTask s tid).runningTasks =
          s.runningTasks.filter (fun u => u.id != tid) := by
  intro sd t s tid
  refine ⟨fun h => ?_, fun h => ?_, rfl, rfl, rfl⟩
  · simp [updateTask, h]
  · simp [updateTask, h]

/-- Witness for C7 (amended) at a concrete failed task. -/
theorem C7_auto_dismiss_witness :
    (updateTask { status := "failed", progress := none, error := none, result := none }
        sampleTask).removalDelayMs = some 5000 :=
  (C7_auto_dismiss_amended
      { status := "failed", progress := none, error := none, result := none }
      sampleTask
      { runningTasks := [], serverTasks := [], store := { frames := [], version := 0 },
        inFlight := [] }
      sampleTask.id).2.1 rfl

/-- C8: the target_frames array serialized into the interpolation
request is strictly increasing: the selection is a Set, so the sorted
array is duplicate-free and ascending. -/
theorem C8_target_frames_strictly_increasing :
    ∀ selected : Finset ℚ,
      List.Sorted (fun a b => a < b) (interpolateTargetFrames selected)
      ∧ (interpolateTargetFrames selected).Nodup := by
  intro selected
  have h : List.Sorted (fun a b : ℚ => a < b) (selected.sort (· ≤ ·)) :=
    Finset.sort_sorted_lt selected
  exact ⟨h, h.nodup⟩

/-- C9: the selected-frame set produced by the textarea is exactly the
set of comma-separated tokens that parse as numbers via parseFloat, and
non-integer, negative and very large values are all accepted, with no
integrality or range check against the current frame count (the handler
never reads it). -/
theorem C9_textarea_accepts_parsefloat :
    (∀ (input : String) (q : ℚ),
        q ∈ handleTextareaChange input ↔
          ∃ cs ∈ textareaTokens input, jsParseFloatChars cs = some q)
    ∧ (5 / 2 : ℚ) ∈ handleTextareaChange sampleTextareaInput
    ∧ (-3 : ℚ) ∈ handleTextareaChange sampleTextareaInput
    ∧ (1000000 : ℚ) ∈ handleTextareaChange sampleTextareaInput := by
  have hchar : ∀ (input : String) (q : ℚ),
      q ∈ handleTextareaChange input ↔
        ∃ cs ∈ textareaTokens input, jsParseFloatChars cs = some q := by
    intro input q
    simp [handleTextareaChange, List.mem_toFinset, List.mem_filterMap]
  refine ⟨hchar, ?_, ?_, ?_⟩
  · refine (hchar _ _).mpr ⟨['2', '.', '5'], by decide, ?_⟩
    have hp : parseDecLit ['2', '.', '5'] =
        some { negative := false, intDigits := ['2'], fracDigits := ['5'], expo := 0 } := by
      decide
    have hi : digitsToNat ['2'] = 2 := by decide
    have hf : digitsToNat ['5'] = 5 := by decide
    simp [jsParseFloatChars, hp, decLitVal, hi, hf, pow10]
    norm_num
  · refine (hchar _ _).mpr ⟨['-', '3'], by decide, ?_⟩
    have hp : parseDecLit ['-', '3'] =
        some { negative := true, intDigits := ['3'], fracDigits := [], expo := 0 } := by
      decide
    have hi : digitsToNat ['3'] = 3 := by decide
    have hf : digitsToNat ([] : List Char) = 0 := by decide
    simp [jsParseFloatChars, hp, decLitVal, hi, hf, pow10]
  · refine (hchar _ _).mpr ⟨['1', '0', '0', '0', '0', '0', '0'], by decide, ?_⟩
    have hp : parseDecLit ['1', '0', '0', '0', '0', '0', '0'] =
        some { negative := false, intDigits := ['1', '0', '0', '0', '0', '0', '0'],
               fracDigits := [], expo := 0 } := by
      decide
    have hi : digitsToNat ['1', '0', '0', '0', '0', '0', '0'] = 1000000 := by decide
    have hf : digitsToNat ([] : List Char) = 0 := by decide
    simp [jsParseFloatChars, hp, decLitVal, hi, hf, pow10]

/-- C10: the polling interval fires every 2000 milliseconds and the
unconditional 300000 millisecond cleanup clears it, so at most 150
firings happen; a status that is neither completed nor failed never
stops polling on its own and never schedules a banner removal, so a
task that never reaches a terminal state simply stops being updated
after the cleanup, its banner still displayed. -/
theorem C10_poll_budget :
    (∀ k, pollTickOccurs k ↔ k < 150)
    ∧ (∀ (sd : StatusData) (t : ClientTask),
        sd.status ≠ "completed" → sd.status ≠ "failed" →
          (updateTask sd t).keepPolling = true
          ∧ (updateTask sd t).removalDelayMs = none) := by
  constructor
  · intro k
    simp only [pollTickOccurs, pollTickAt, pollIntervalMs, pollCleanupMs]
    omega
  · intro sd t h1 h2
    by_cases h3 : sd.status = "processing" <;> simp [updateTask, h1, h2, h3]

/-- Witness for C10 at a concrete non-terminal status. -/
theorem C10_poll_budget_witness :
    (updateTask { status := "processing", progress := none, error := none, result := none }
        sampleTask).keepPolling = true
    ∧ (updateTask { status := "processing", progress := none, error := none, result := none }
        sampleTask).removalDelayMs = none :=
  C10_poll_budget.2
    { status := "processing", progress := none, error := none, result := none }
    sampleTask (by decide) (by decide)

end Frames
